import Mathlib

/-!
Verification of the goodreads scrape-and-persist pipeline
(`goodreads_final.py`): a shallow embedding of the listing crawler,
detail extractor, ingestion orchestrator, Mongo-backed store and the
HTTP boundary, together with theorems about the claims of the spec.

External effects are modelled explicitly: the network is a pure
function from URL/genre to an HTTP response, and the Mongo collection
is a value threaded through the store operations.
-/

set_option autoImplicit false

namespace Goodreads

/-- Python-style dynamic values, as they appear in the scraped JSON and
in DataFrame cells: strings, integers, lists and `None`.  This is the
value space over which `place_book_in_mongo`'s defensive re-coercions
operate. -/
inductive PyVal where
  | str (s : String)
  | intv (n : Int)
  | listv (xs : List PyVal)
  | noneV

mutual

def PyVal.decEq : (a b : PyVal) → Decidable (a = b)
  | .str s, .str t =>
      if h : s = t then isTrue (by rw [h])
      else isFalse (by intro he; cases he; exact h rfl)
  | .intv m, .intv n =>
      if h : m = n then isTrue (by rw [h])
      else isFalse (by intro he; cases he; exact h rfl)
  | .noneV, .noneV => isTrue rfl
  | .listv xs, .listv ys =>
      match PyVal.decEqList xs ys with
      | isTrue h => isTrue (by rw [h])
      | isFalse h => isFalse (by intro he; cases he; exact h rfl)
  | .str _, .intv _ => isFalse fun h => PyVal.noConfusion h
  | .str _, .listv _ => isFalse fun h => PyVal.noConfusion h
  | .str _, .noneV => isFalse fun h => PyVal.noConfusion h
  | .intv _, .str _ => isFalse fun h => PyVal.noConfusion h
  | .intv _, .listv _ => isFalse fun h => PyVal.noConfusion h
  | .intv _, .noneV => isFalse fun h => PyVal.noConfusion h
  | .listv _, .str _ => isFalse fun h => PyVal.noConfusion h
  | .listv _, .intv _ => isFalse fun h => PyVal.noConfusion h
  | .listv _, .noneV => isFalse fun h => PyVal.noConfusion h
  | .noneV, .str _ => isFalse fun h => PyVal.noConfusion h
  | .noneV, .intv _ => isFalse fun h => PyVal.noConfusion h
  | .noneV, .listv _ => isFalse fun h => PyVal.noConfusion h

def PyVal.decEqList : (xs ys : List PyVal) → Decidable (xs = ys)
  | [], [] => isTrue rfl
  | x :: xs, y :: ys =>
      match PyVal.decEq x y, PyVal.decEqList xs ys with
      | isTrue h1, isTrue h2 => isTrue (by rw [h1, h2])
      | isFalse h1, _ => isFalse (by intro he; injection he; exact h1 (by assumption))
      | _, isFalse h2 => isFalse (by intro he; injection he; exact h2 (by assumption))
  | [], _ :: _ => isFalse fun h => List.noConfusion h
  | _ :: _, [] => isFalse fun h => List.noConfusion h

end

instance : DecidableEq PyVal := PyVal.decEq

mutual

/-- Model of Python `str(x)`.  A string is returned unchanged, numbers
and `None` render as in Python; list rendering elides the repr-quoting
of nested strings (no claim depends on the exact rendering of a
`str()`-ed list). -/
def pyStr : PyVal → String
  | .str s => s
  | .intv n => toString n
  | .noneV => "None"
  | .listv xs => "[" ++ pyStrList xs ++ "]"

def pyStrList : List PyVal → String
  | [] => ""
  | [v] => pyStr v
  | v :: w :: vs => pyStr v ++ ", " ++ pyStrList (w :: vs)

end

/-- One entry of the `author` array of the embedded `application/ld+json`
metadata block: the code reads exactly `author["name"]`. -/
structure AuthorEntry where
  name : String
deriving DecidableEq

/-- The embedded structured-metadata block of a detail page
(`application/ld+json`), with `none` for fields the source omits;
`json_data.get(k, d)` is `Option.getD`. -/
structure LdJsonData where
  name : Option String
  author : Option (List AuthorEntry)
  publisher : Option String
  numberOfPages : Option PyVal
  inLanguage : Option String
  genre : Option String
  image : Option String
  isbn : Option String
deriving DecidableEq

/-- The dict built by `fetch_book_details` on success (a BookRecord). -/
structure BookDetails where
  title : String
  authors : List String
  publisher : String
  page_count : PyVal
  language : String
  category : String
  thumbnail : String
  isbn : String
  link : String
deriving DecidableEq

/-- What `fetch_book_details` returns: either an `{"error": ...}` dict
or a book-details dict. -/
inductive BookEntry where
  | error (msg : String)
  | record (b : BookDetails)
deriving DecidableEq

/-- An HTTP response: status code plus parsed body. -/
structure HttpResponse (α : Type) where
  status_code : Nat
  body : α

/-- A `.bookTitle` anchor of a listing page: visible text and relative
`href`. -/
structure Anchor where
  text : String
  href : String
deriving DecidableEq

/-- The network, as two pure fetch functions: a genre's listing page
body is its list of `.bookTitle` anchors, a detail page body is its
`application/ld+json` script tag when present. -/
structure Network where
  listing : String → HttpResponse (List Anchor)
  detail : String → HttpResponse (Option LdJsonData)

/-- `fetch_book_details(book_url, genre)`: error dict on non-200 status
or missing script tag; otherwise the field-by-field extraction with
`"N/A"` defaults, `genre` fallback for `category`, and `link = book_url`. -/
def fetch_book_details (net_detail : String → HttpResponse (Option LdJsonData))
    (book_url genre : String) : BookEntry :=
  let response := net_detail book_url
  if response.status_code ≠ 200 then
    .error ("Failed to fetch book details. Status code: " ++ toString response.status_code)
  else
    match response.body with
    | some json_data =>
        .record
          { title := json_data.name.getD "N/A"
            authors := (json_data.author.getD []).map AuthorEntry.name
            publisher := json_data.publisher.getD "N/A"
            page_count := json_data.numberOfPages.getD (.str "N/A")
            language := json_data.inLanguage.getD "N/A"
            category := json_data.genre.getD genre
            thumbnail := json_data.image.getD "N/A"
            isbn := json_data.isbn.getD "N/A"
            link := book_url }
    | none => .error ("Failed to find script tag with JSON data for " ++ book_url)

/-- What `scrape_books_by_genre` returns: an `{"error": ...}` dict on a
failed listing fetch, otherwise the list of per-book entries. -/
inductive GenreResult where
  | error (msg : String)
  | books (entries : List BookEntry)
deriving DecidableEq

def goodreads_base : String := "https://www.goodreads.com"

/-- `scrape_books_by_genre(genre)`: error dict on non-200; otherwise,
for every `.bookTitle` anchor, resolve the relative link against the
site base and fetch the book's details — each result is appended to
`books` unconditionally, error dicts included. -/
def scrape_books_by_genre (net : Network) (genre : String) : GenreResult :=
  let response := net.listing genre
  if response.status_code ≠ 200 then
    .error ("Failed to fetch data for genre " ++ genre ++ ". Status code: "
      ++ toString response.status_code)
  else
    .books (response.body.map fun book =>
      fetch_book_details net.detail (goodreads_base ++ book.href) genre)

/-- The accumulation loop of `fetch_and_store_books`: for each genre in
order, `all_books.extend(books)` when `scrape_books_by_genre` returned a
list (`"error" not in books` is true for every list of dicts), skip the
genre when it returned an error dict. -/
def fetch_and_store_books (net : Network) (genres : List String) : List BookEntry :=
  genres.foldl
    (fun all_books genre =>
      match scrape_books_by_genre net genre with
      | .books books => all_books ++ books
      | .error _ => all_books)
    []

/-- The tail of `fetch_and_store_books`: the list of batches handed to
`place_book_in_mongo` — one call with the whole batch when `all_books`
is non-empty, none otherwise. -/
def run_ingestion (net : Network) (genres : List String) : List (List BookEntry) :=
  let all_books := fetch_and_store_books net genres
  if all_books.isEmpty then [] else [all_books]

/-! ## Store layer (`place_book_in_mongo`, `import_from_mongo`,
`remove_selection_from_mongo`) -/

/-- One row of the DataFrame handed to `place_book_in_mongo`: the nine
columns a scraped book dict has, each cell still a dynamic value. -/
structure RawRecord where
  title : PyVal
  authors : PyVal
  publisher : PyVal
  page_count : PyVal
  language : PyVal
  category : PyVal
  thumbnail : PyVal
  isbn : PyVal
  link : PyVal
deriving DecidableEq

/-- A document as inserted into the collection: `authors`, `publisher`
and `title` have been coerced to (lists of) strings, the remaining
columns pass through unchanged. -/
structure StoredDoc where
  title : String
  authors : List String
  publisher : String
  page_count : PyVal
  language : PyVal
  category : PyVal
  thumbnail : PyVal
  isbn : PyVal
  link : PyVal
deriving DecidableEq

/-- Line 31 of the source: `[str(author) for author in x] if
isinstance(x, list) else []`. -/
def normalize_authors (x : PyVal) : List String :=
  match x with
  | .listv xs => xs.map pyStr
  | _ => []

/-- The per-row normalization of `place_book_in_mongo`: the `authors`
cell via `normalize_authors`, `publisher` and `title` via `astype(str)`;
every other column unchanged. -/
def normalize_record (r : RawRecord) : StoredDoc :=
  { title := pyStr r.title
    authors := normalize_authors r.authors
    publisher := pyStr r.publisher
    page_count := r.page_count
    language := r.language
    category := r.category
    thumbnail := r.thumbnail
    isbn := r.isbn
    link := r.link }

/-- An index specification, e.g. `[("authors", "text"), ...]`. -/
abbrev IndexSpec := List (String × String)

/-- The compound full-text index `place_book_in_mongo` creates. -/
def text_index : IndexSpec :=
  [("authors", "text"), ("publisher", "text"), ("title", "text")]

/-- The `goodreads_books` collection: documents paired with their
store-assigned `_id` in insertion order, the non-default indexes
(`drop_indexes` never drops the built-in `_id` index, which is why it
is not modelled), and the id counter. -/
structure Collection where
  docs : List (Nat × StoredDoc)
  indexes : List IndexSpec
  nextId : Nat
deriving DecidableEq

def empty_collection : Collection :=
  { docs := [], indexes := [], nextId := 0 }

/-- `collection.insert_many(books_list)`: every record becomes a new
document with a fresh id — no upsert, no deduplication. -/
def insert_many (records : List StoredDoc) (c : Collection) : Collection :=
  { c with
    docs := c.docs ++ records.enum.map fun p => (c.nextId + p.1, p.2)
    nextId := c.nextId + records.length }

/-- `place_book_in_mongo(books_df)`: normalize the three text-index
columns, drop all existing indexes, insert every row as a new document,
then create the compound text index. -/
def place_book_in_mongo (books_df : List RawRecord) (c : Collection) : Collection :=
  let books_list := books_df.map normalize_record
  let c1 : Collection := { c with indexes := [] }
  let c2 := insert_many books_list c1
  { c2 with indexes := c2.indexes ++ [text_index] }

/-- `import_from_mongo`: `collection.find()` returns every document. -/
def import_from_mongo (c : Collection) : List (Nat × StoredDoc) :=
  c.docs

/-- `collection.delete_one({"_id": id})` on the document list: remove
the first match, returning the remaining list and `deleted_count`. -/
def delete_first (docs : List (Nat × StoredDoc)) (id : Nat) :
    List (Nat × StoredDoc) × Nat :=
  match docs with
  | [] => ([], 0)
  | d :: rest =>
      if d.1 = id then (rest, 1)
      else
        let r := delete_first rest id
        (d :: r.1, r.2)

/-- `remove_selection_from_mongo(mongo_ID, ...)`: `delete_one` then
`result.deleted_count > 0`. -/
def remove_selection_from_mongo (mongo_ID : Nat) (c : Collection) : Collection × Bool :=
  let r := delete_first c.docs mongo_ID
  ({ c with docs := r.1 }, decide (0 < r.2))

/-! ## HTTP boundary (`scrape_books`, `remove_by_ID`) -/

/-- The body of a `POST /scrape_books` request: either a JSON object
without a `genres` key (so `request.json["genres"]` raises `KeyError`)
or one carrying a genres list. -/
inductive ScrapeRequest where
  | missing_genres
  | genres (gs : List String)
deriving DecidableEq

/-- The `/scrape_books` route up to the point the background worker is
spawned: the (status, message) response, and `some gs` exactly when a
`fetch_and_store_books` thread was started for genres `gs`. -/
def scrape_books (req : ScrapeRequest) : (Nat × String) × Option (List String) :=
  match req with
  | .missing_genres => ((400, "Genres are required in the input JSON"), none)
  | .genres gs =>
      if gs.isEmpty then ((400, "The genres list cannot be empty"), none)
      else ((202, "Books are being fetched. Please wait..."), some gs)

/-- Hex-digit test, by code point: `0`-`9`, `a`-`f`, `A`-`F`. -/
def is_hex_char (c : Char) : Bool :=
  (48 ≤ c.toNat && c.toNat ≤ 57)
    || (97 ≤ c.toNat && c.toNat ≤ 102)
    || (65 ≤ c.toNat && c.toNat ≤ 70)

/-- Modelled from the `bson` library, not this repository:
`ObjectId(s)` on a string succeeds exactly when `s` is a 24-character
hexadecimal string, and raises `InvalidId` otherwise. -/
def is_valid_object_id (s : String) : Bool :=
  s.length == 24 && s.data.all is_hex_char

/-- The numeric value of a (validated) hexadecimal ObjectId string;
stands for the 12-byte identifier the hex string denotes. -/
def object_id_value (s : String) : Nat :=
  s.data.foldl
    (fun a c =>
      16 * a
        + (if 48 ≤ c.toNat && c.toNat ≤ 57 then c.toNat - 48
           else if 97 ≤ c.toNat then c.toNat - 87
           else c.toNat - 55))
    0

/-- `check_correct_mongo_ID(mongo_ID)`: `None` for a missing or empty
id (`if not mongo_ID`) and for a string `ObjectId` rejects; otherwise
the converted id. -/
def check_correct_mongo_ID (mongo_ID : Option String) : Option String :=
  match mongo_ID with
  | none => none
  | some s =>
      if s.isEmpty then none
      else if is_valid_object_id s then some s else none

/-- The `/remove_by_ID` route: validate the raw id; on failure answer
"Wrong ID, nothing happened!" without touching the store; otherwise
call `remove_selection_from_mongo` and answer by its result.  The
`Bool` of the result records whether the store was contacted. -/
def remove_by_ID (data_id : Option String) (c : Collection) :
    String × Collection × Bool :=
  match check_correct_mongo_ID data_id with
  | none => ("Wrong ID, nothing happened!", c, false)
  | some oid =>
      let r := remove_selection_from_mongo (object_id_value oid) c
      if r.2 then ("Book removed", r.1, true)
      else ("Wrong ID, nothing happened!", r.1, true)

/-! ## Derived views and concrete fixtures -/

/-- The records a single genre contributes to `all_books`: what the
genre's scrape produced when it was a list, nothing when it was an
error dict. -/
def genre_books (net : Network) (g : String) : List BookEntry :=
  match scrape_books_by_genre net g with
  | .books bs => bs
  | .error _ => []

/-- Metadata block of the spec's scenario: the source's own genre field
is absent. -/
def demo_json : LdJsonData :=
  { name := some "Book Two"
    author := some [{ name := "Alice" }]
    publisher := some "Pub"
    numberOfPages := some (.intv 100)
    inLanguage := some "en"
    genre := none
    image := some "img"
    isbn := some "123" }

def demo_url1 : String := "https://www.goodreads.com/book/show/1"

def demo_url2 : String := "https://www.goodreads.com/book/show/2"

/-- The spec's scenario network: the `fiction` listing yields two book
links, the first detail page fails with status 404, the second
succeeds; every other listing fetch fails with 404. -/
def demo_net : Network :=
  { listing := fun g =>
      if g = "fiction" then
        { status_code := 200
          body := [{ text := "Book One", href := "/book/show/1" },
                   { text := "Book Two", href := "/book/show/2" }] }
      else { status_code := 404, body := [] }
    detail := fun u =>
      if u = demo_url2 then { status_code := 200, body := some demo_json }
      else { status_code := 404, body := none } }

def demo_doc : StoredDoc :=
  { title := "T"
    authors := ["A"]
    publisher := "P"
    page_count := .intv 1
    language := .str "en"
    category := .str "fiction"
    thumbnail := .str "x"
    isbn := .str "9"
    link := .str "l" }

/-- A collection holding two documents with distinct ids. -/
def demo_collection : Collection :=
  { docs := [(0, demo_doc), (1, demo_doc)], indexes := [text_index], nextId := 2 }

/-- A pre-normalization record, as a row of the ingestion DataFrame. -/
def demo_raw : RawRecord :=
  { title := .str "T"
    authors := .listv [.str "A"]
    publisher := .str "P"
    page_count := .str "N/A"
    language := .str "en"
    category := .str "fiction"
    thumbnail := .str "x"
    isbn := .str "9"
    link := .str "l" }

/-! ## Helper lemmas -/

lemma fetch_and_store_books_eq (net : Network) (gs : List String) :
    fetch_and_store_books net gs = (gs.map (genre_books net)).flatten := by
  suffices h : ∀ acc : List BookEntry,
      gs.foldl
        (fun all_books genre =>
          match scrape_books_by_genre net genre with
          | .books books => all_books ++ books
          | .error _ => all_books)
        acc
      = acc ++ (gs.map (genre_books net)).flatten by
    simpa [fetch_and_store_books] using h []
  induction gs with
  | nil => intro acc; simp
  | cons g gs ih =>
      intro acc
      simp only [List.foldl_cons, List.map_cons, List.flatten_cons]
      cases hg : scrape_books_by_genre net g with
      | books bs => rw [ih]; simp [genre_books, hg]
      | error m => rw [ih]; simp [genre_books, hg]

lemma insert_many_docs_snd (records : List StoredDoc) (c : Collection) :
    (insert_many records c).docs.map Prod.snd = c.docs.map Prod.snd ++ records := by
  simp only [insert_many, List.map_append, List.map_map]
  congr 1
  have hcomp : (Prod.snd ∘ fun p : Nat × StoredDoc => (c.nextId + p.1, p.2))
      = (Prod.snd : Nat × StoredDoc → StoredDoc) := rfl
  rw [hcomp, List.enum_map_snd]

lemma place_book_in_mongo_docs_snd (batch : List RawRecord) (c : Collection) :
    (place_book_in_mongo batch c).docs.map Prod.snd
      = c.docs.map Prod.snd ++ batch.map normalize_record := by
  simp only [place_book_in_mongo]
  rw [insert_many_docs_snd]

lemma place_book_in_mongo_indexes (batch : List RawRecord) (c : Collection) :
    (place_book_in_mongo batch c).indexes = [text_index] := by
  simp [place_book_in_mongo, insert_many]

lemma delete_first_count (docs : List (Nat × StoredDoc)) (id : Nat) :
    (delete_first docs id).2 = if id ∈ docs.map Prod.fst then 1 else 0 := by
  induction docs with
  | nil => simp [delete_first]
  | cons d rest ih =>
      by_cases h : d.1 = id
      · simp [delete_first, h]
      · have h2 : ¬ id = d.1 := fun he => h he.symm
        have hiff : id ∈ d.1 :: List.map Prod.fst rest ↔ id ∈ List.map Prod.fst rest := by
          simp [List.mem_cons, h2]
        simp only [delete_first, h, if_false, List.map_cons, ih]
        exact if_congr hiff.symm rfl rfl

lemma delete_first_length (docs : List (Nat × StoredDoc)) (id : Nat) :
    docs.length = (delete_first docs id).1.length + (delete_first docs id).2 := by
  induction docs with
  | nil => simp [delete_first]
  | cons d rest ih =>
      by_cases h : d.1 = id
      · simp [delete_first, h]
      · simp only [delete_first, h, if_false, List.length_cons]
        omega

lemma delete_first_removes (docs : List (Nat × StoredDoc)) (id : Nat)
    (h : (docs.map Prod.fst).Nodup) :
    id ∉ (delete_first docs id).1.map Prod.fst := by
  induction docs with
  | nil => simp [delete_first]
  | cons d rest ih =>
      simp only [List.map_cons, List.nodup_cons] at h
      by_cases hd : d.1 = id
      · simp only [delete_first, hd, if_true]
        rw [← hd]
        exact h.1
      · simp only [delete_first, hd, if_false, List.map_cons, List.mem_cons]
        push_neg
        exact ⟨fun he => hd he.symm, ih h.2⟩


/-! ## Claim theorems -/

/-- Claim C2: for every detail page with a success status and a
structured-metadata block, extraction returns a record whose author
list is the `name` of each author entry (empty when the source has no
author field), whose omitted fields (title, publisher, page count,
language, thumbnail, isbn) carry the literal `"N/A"`, whose `category`
is the source's genre field when present and the genre parameter
otherwise, and whose source link is the detail URL. -/
theorem C2_extract_maps_fields (net_detail : String → HttpResponse (Option LdJsonData))
    (url genre : String) (json_data : LdJsonData)
    (hstatus : (net_detail url).status_code = 200)
    (hbody : (net_detail url).body = some json_data) :
    ∃ b : BookDetails,
      fetch_book_details net_detail url genre = .record b
      ∧ b.authors = (json_data.author.getD []).map AuthorEntry.name
      ∧ (json_data.author = none → b.authors = [])
      ∧ (json_data.name = none → b.title = "N/A")
      ∧ (json_data.publisher = none → b.publisher = "N/A")
      ∧ (json_data.numberOfPages = none → b.page_count = .str "N/A")
      ∧ (json_data.inLanguage = none → b.language = "N/A")
      ∧ (json_data.image = none → b.thumbnail = "N/A")
      ∧ (json_data.isbn = none → b.isbn = "N/A")
      ∧ (∀ g, json_data.genre = some g → b.category = g)
      ∧ (json_data.genre = none → b.category = genre)
      ∧ b.link = url := by
  refine ⟨{ title := json_data.name.getD "N/A"
            authors := (json_data.author.getD []).map AuthorEntry.name
            publisher := json_data.publisher.getD "N/A"
            page_count := json_data.numberOfPages.getD (.str "N/A")
            language := json_data.inLanguage.getD "N/A"
            category := json_data.genre.getD genre
            thumbnail := json_data.image.getD "N/A"
            isbn := json_data.isbn.getD "N/A"
            link := url }, ?_, rfl, ?_, ?_, ?_, ?_, ?_, ?_, ?_, ?_, ?_, rfl⟩
  · simp [fetch_book_details, hstatus, hbody]
  · intro h; simp [h]
  · intro h; simp [h]
  · intro h; simp [h]
  · intro h; simp [h]
  · intro h; simp [h]
  · intro h; simp [h]
  · intro h; simp [h]
  · intro g hg; simp [hg]
  · intro h; simp [h]

/-- Instantiation of `C2_extract_maps_fields` on the demo detail page,
whose metadata block lacks the genre field. -/
theorem C2_extract_maps_fields_witness :
    (demo_net.detail demo_url2).status_code = 200
    ∧ (demo_net.detail demo_url2).body = some demo_json
    ∧ ∃ b : BookDetails,
        fetch_book_details demo_net.detail demo_url2 "fiction" = .record b
        ∧ b.category = "fiction" ∧ b.link = demo_url2 ∧ b.authors = ["Alice"] := by
  refine ⟨rfl, rfl, ?_⟩
  obtain ⟨b, h1, h2, _h3, _h4, _h5, _h6, _h7, _h8, _h9, _h10, h11, h12⟩ :=
    C2_extract_maps_fields demo_net.detail demo_url2 "fiction" demo_json rfl rfl
  exact ⟨b, h1, h11 rfl, h12, by rw [h2]; rfl⟩

/-- Claim C3: a genre whose listing fetch returns a non-success status
contributes zero records, and the run behaves exactly as if that genre
were not in the list — a listing failure is never fatal. -/
theorem C3_listing_failure_skips_genre (net : Network) (gs1 gs2 : List String) (g : String)
    (hfail : (net.listing g).status_code ≠ 200) :
    fetch_and_store_books net (gs1 ++ g :: gs2) = fetch_and_store_books net (gs1 ++ gs2) := by
  have hg : genre_books net g = [] := by
    unfold genre_books scrape_books_by_genre
    simp [hfail]
  simp [fetch_and_store_books_eq, hg]

/-- Instantiation of `C3_listing_failure_skips_genre`: a genre with a
404 listing in the middle of the run changes nothing. -/
theorem C3_listing_failure_skips_genre_witness :
    (demo_net.listing "horror").status_code ≠ 200
    ∧ fetch_and_store_books demo_net (["fiction"] ++ "horror" :: [])
        = fetch_and_store_books demo_net (["fiction"] ++ []) :=
  ⟨by decide, C3_listing_failure_skips_genre demo_net ["fiction"] [] "horror" (by decide)⟩

/-- Claim C4: after all genres are processed, persist is called at most
once, is called zero times exactly when the accumulated batch is empty,
and any call it makes is with the whole accumulated batch. -/
theorem C4_persist_exactly_once (net : Network) (genres : List String) :
    (run_ingestion net genres).length ≤ 1
    ∧ ((run_ingestion net genres).length = 0 ↔ fetch_and_store_books net genres = [])
    ∧ ∀ batch ∈ run_ingestion net genres, batch = fetch_and_store_books net genres := by
  cases h : fetch_and_store_books net genres with
  | nil => simp [run_ingestion, h]
  | cons b bs => simp [run_ingestion, h]

/-- Instantiation of `C4_persist_exactly_once` on the demo run. -/
theorem C4_persist_exactly_once_witness :
    (run_ingestion demo_net ["fiction"]).length ≤ 1
    ∧ ((run_ingestion demo_net ["fiction"]).length = 0
        ↔ fetch_and_store_books demo_net ["fiction"] = [])
    ∧ ∀ batch ∈ run_ingestion demo_net ["fiction"],
        batch = fetch_and_store_books demo_net ["fiction"] :=
  C4_persist_exactly_once demo_net ["fiction"]

/-- Claim C5: every persist call leaves exactly the compound text index
over authors/publisher/title (everything prior dropped), appends every
record of the batch as a new document with no deduplication, and two
sequential single-record persists from an empty collection leave two
documents and one surviving text index. -/
theorem C5_persist_drop_insert_rebuild (batch : List RawRecord) (c : Collection)
    (r1 r2 : RawRecord) :
    (place_book_in_mongo batch c).indexes = [text_index]
    ∧ (place_book_in_mongo batch c).docs.map Prod.snd
        = c.docs.map Prod.snd ++ batch.map normalize_record
    ∧ (place_book_in_mongo [r2] (place_book_in_mongo [r1] empty_collection)).docs.map Prod.snd
        = [normalize_record r1, normalize_record r2]
    ∧ (place_book_in_mongo [r2] (place_book_in_mongo [r1] empty_collection)).indexes
        = [text_index] := by
  refine ⟨place_book_in_mongo_indexes batch c, place_book_in_mongo_docs_snd batch c, ?_,
    place_book_in_mongo_indexes _ _⟩
  rw [place_book_in_mongo_docs_snd, place_book_in_mongo_docs_snd]
  simp [empty_collection]

/-- Claim C6: a trigger request whose body lacks the genres field or
carries an empty list is answered 400 with no background work; a worker
is spawned only for a non-empty genres list, with status 202. -/
theorem C6_trigger_rejects_invalid (req : ScrapeRequest) :
    ((req = .missing_genres ∨ req = .genres []) →
        (scrape_books req).1.1 = 400 ∧ (scrape_books req).2 = none)
    ∧ (∀ gs, (scrape_books req).2 = some gs →
        req = .genres gs ∧ gs ≠ [] ∧ (scrape_books req).1.1 = 202) := by
  constructor
  · rintro (h | h) <;> subst h <;> simp [scrape_books]
  · intro gs h
    cases req with
    | missing_genres => simp [scrape_books] at h
    | genres gs2 =>
        by_cases he : gs2.isEmpty = true
        · simp [scrape_books, he] at h
        · simp only [scrape_books, he, if_false] at h
          obtain rfl : gs2 = gs := Option.some.inj h
          refine ⟨rfl, ?_, by simp [scrape_books, he]⟩
          intro hnil
          subst hnil
          simp at he

/-- Instantiation of `C6_trigger_rejects_invalid` on the empty genres
list. -/
theorem C6_trigger_rejects_invalid_witness :
    (scrape_books (.genres [])).1.1 = 400 ∧ (scrape_books (.genres [])).2 = none :=
  (C6_trigger_rejects_invalid (.genres [])).1 (Or.inr rfl)

/-- Claim C7: `deleteByID` removes at most one document (exactly one
when the id is present, none otherwise), returns true exactly when a
document was removed — false, not an error, on a non-matching id — and
a second call with the same id returns false. -/
theorem C7_delete_at_most_once (c : Collection) (id : Nat)
    (hnodup : (c.docs.map Prod.fst).Nodup) :
    ((remove_selection_from_mongo id c).1.docs.length
        + (if id ∈ c.docs.map Prod.fst then 1 else 0) = c.docs.length)
    ∧ ((remove_selection_from_mongo id c).2 = true ↔ id ∈ c.docs.map Prod.fst)
    ∧ (remove_selection_from_mongo id (remove_selection_from_mongo id c).1).2 = false := by
  have hc := delete_first_count c.docs id
  have hl := delete_first_length c.docs id
  refine ⟨?_, ?_, ?_⟩
  · simp only [remove_selection_from_mongo]
    by_cases hm : id ∈ c.docs.map Prod.fst
    · simp only [hm, if_true] at hc ⊢
      omega
    · simp only [hm, if_false] at hc ⊢
      omega
  · simp only [remove_selection_from_mongo]
    by_cases hm : id ∈ c.docs.map Prod.fst
    · simp [hm] at hc
      simp [hm, hc]
    · simp [hm] at hc
      simp [hm, hc]
  · have hrem := delete_first_removes c.docs id hnodup
    simp only [remove_selection_from_mongo]
    simp [delete_first_count, hrem]

/-- Instantiation of `C7_delete_at_most_once` on a two-document
collection with distinct ids. -/
theorem C7_delete_at_most_once_witness :
    (demo_collection.docs.map Prod.fst).Nodup
    ∧ (((remove_selection_from_mongo 0 demo_collection).1.docs.length
          + (if 0 ∈ demo_collection.docs.map Prod.fst then 1 else 0)
          = demo_collection.docs.length)
       ∧ ((remove_selection_from_mongo 0 demo_collection).2 = true
            ↔ 0 ∈ demo_collection.docs.map Prod.fst)
       ∧ (remove_selection_from_mongo 0
            (remove_selection_from_mongo 0 demo_collection).1).2 = false) :=
  ⟨by decide, C7_delete_at_most_once demo_collection 0 (by decide)⟩

/-- Claim C8: a missing, empty or malformed raw id is answered with the
"Wrong ID, nothing happened!" message and never reaches the store; the
store is contacted only when the raw id is a well-formed ObjectId
string. -/
theorem C8_validation_gates_store (data_id : Option String) (c : Collection) :
    ((∀ s, data_id = some s → s.isEmpty = true ∨ is_valid_object_id s = false) →
        remove_by_ID data_id c = ("Wrong ID, nothing happened!", c, false))
    ∧ ((remove_by_ID data_id c).2.2 = true →
        ∃ s, data_id = some s ∧ s.isEmpty = false ∧ is_valid_object_id s = true) := by
  cases data_id with
  | none => simp [remove_by_ID, check_correct_mongo_ID]
  | some s =>
      by_cases he : s.isEmpty = true
      · constructor
        · intro _
          simp [remove_by_ID, check_correct_mongo_ID, he]
        · intro hcontact
          exfalso
          simp [remove_by_ID, check_correct_mongo_ID, he] at hcontact
      · have he2 : s.isEmpty = false := by simpa using he
        by_cases hv : is_valid_object_id s = true
        · constructor
          · intro hbad
            rcases hbad s rfl with h1 | h1
            · exact absurd h1 he
            · rw [h1] at hv
              exact absurd hv (by simp)
          · intro _
            exact ⟨s, rfl, he2, hv⟩
        · constructor
          · intro _
            simp [remove_by_ID, check_correct_mongo_ID, he, hv]
          · intro hcontact
            exfalso
            simp [remove_by_ID, check_correct_mongo_ID, he, hv] at hcontact

/-- Instantiation of `C8_validation_gates_store`: the spec's
`"not-a-valid-id"` gets the wrong-ID answer and the collection is
untouched. -/
theorem C8_validation_gates_store_witness :
    remove_by_ID (some "not-a-valid-id") demo_collection
      = ("Wrong ID, nothing happened!", demo_collection, false) :=
  (C8_validation_gates_store (some "not-a-valid-id") demo_collection).1
    (fun s hs => by cases hs; exact Or.inr (by decide))

/-- Claim C9: every record of a persisted batch is retrievable via
`queryAll` with title, authors and publisher in their normalized string
form and category, isbn and source link unchanged. -/
theorem C9_roundtrip (batch : List RawRecord) (c : Collection) (r : RawRecord)
    (hr : r ∈ batch) :
    ∃ d ∈ import_from_mongo (place_book_in_mongo batch c),
      d.2.title = pyStr r.title
      ∧ d.2.authors = normalize_authors r.authors
      ∧ d.2.publisher = pyStr r.publisher
      ∧ d.2.category = r.category
      ∧ d.2.isbn = r.isbn
      ∧ d.2.link = r.link := by
  have h1 : normalize_record r ∈ (place_book_in_mongo batch c).docs.map Prod.snd := by
    rw [place_book_in_mongo_docs_snd]
    exact List.mem_append_right _ (List.mem_map_of_mem _ hr)
  obtain ⟨d, hd, hde⟩ := List.mem_map.mp h1
  exact ⟨d, hd, by rw [hde]; exact ⟨rfl, rfl, rfl, rfl, rfl, rfl⟩⟩

/-- Instantiation of `C9_roundtrip` on a single-record batch persisted
into the empty collection. -/
theorem C9_roundtrip_witness :
    demo_raw ∈ [demo_raw]
    ∧ ∃ d ∈ import_from_mongo (place_book_in_mongo [demo_raw] empty_collection),
        d.2.title = pyStr demo_raw.title
        ∧ d.2.authors = normalize_authors demo_raw.authors
        ∧ d.2.publisher = pyStr demo_raw.publisher
        ∧ d.2.category = demo_raw.category
        ∧ d.2.isbn = demo_raw.isbn
        ∧ d.2.link = demo_raw.link :=
  ⟨List.mem_singleton.mpr rfl,
    C9_roundtrip [demo_raw] empty_collection demo_raw (List.mem_singleton.mpr rfl)⟩

/-- Claim C10: persist's authors normalization maps a list cell to the
list of its elements' string forms and replaces any non-list cell by
the empty list, and is exactly what `place_book_in_mongo` applies to
the authors column of every record. -/
theorem C10_authors_coercion (x : PyVal) (r : RawRecord) :
    (∀ xs, x = .listv xs → normalize_authors x = xs.map pyStr)
    ∧ ((∀ xs, x ≠ .listv xs) → normalize_authors x = [])
    ∧ (normalize_record r).authors = normalize_authors r.authors := by
  refine ⟨?_, ?_, rfl⟩
  · intro xs h
    subst h
    rfl
  · intro h
    cases x with
    | listv xs => exact absurd rfl (h xs)
    | str s => rfl
    | intv n => rfl
    | noneV => rfl

/-- Instantiation of `C10_authors_coercion`: a bare-string authors cell
is silently replaced by the empty list. -/
theorem C10_authors_coercion_witness :
    ((∀ xs, PyVal.str "Jane" = .listv xs →
        normalize_authors (.str "Jane") = xs.map pyStr)
     ∧ ((∀ xs, PyVal.str "Jane" ≠ .listv xs) → normalize_authors (.str "Jane") = [])
     ∧ (normalize_record demo_raw).authors = normalize_authors demo_raw.authors)
    ∧ normalize_authors (.str "Jane") = [] := by
  have h := C10_authors_coercion (.str "Jane") demo_raw
  exact ⟨h, h.2.1 (fun xs he => PyVal.noConfusion he)⟩

/-- Claim C1, evaluated at the spec's own scenario (genre `fiction`,
two listed books, detail fetch of the first fails with 404, the second
succeeds with no source genre field): the batch handed to persist has
TWO entries — the `{"error": ...}` dict of the failed book is appended
by `scrape_books_by_genre` and `fetch_and_store_books`'s
`"error" not in books` test does not filter entries of a list — so the
failed book is NOT excluded from the final batch, contradicting the
claim that the batch contains exactly one BookRecord. -/
theorem C1_failed_book_reaches_persist :
    run_ingestion demo_net ["fiction"] =
      [[BookEntry.error "Failed to fetch book details. Status code: 404",
        BookEntry.record
          { title := "Book Two"
            authors := ["Alice"]
            publisher := "Pub"
            page_count := .intv 100
            language := "en"
            category := "fiction"
            thumbnail := "img"
            isbn := "123"
            link := demo_url2 }]] := by
  rfl

end Goodreads
